import Mathlib

/-!
Shallow embedding of the `object-pool` crate (src/lib.rs): a thread-safe
object pool `Pool<T>` with RAII borrow handles `Reusable<T>`.

Modelling conventions:
* `Vec<T>` (aliased `Stack<T>` in the source) is a `List T` whose last
  element is the top of the stack: `Vec::push` appends at the end
  (`List.concat`), `Vec::pop` removes the last element.
* `Arc<Pool<T>>` is a pool identifier `PoolId` into an explicit world
  `World T : PoolId → Pool T`; every operation that mutates a pool through
  a shared reference takes the world and returns the updated world.
* `Instant` is abstracted as a `Nat` timestamp; `Instant::now()` at
  construction is abstracted as time `0` (no operation in the crate ever
  reads or writes `last_fail` after construction, so the concrete value is
  irrelevant to every claim).
* `AtomicUsize` is a `Nat`.
* The `Fn() -> T` factory passed to `Pool::new` is modelled as
  `Nat → T`, indexed by the invocation count: the i-th call of the loop
  body returns `init i`.  A pure closure is the constant function; the
  indexing keeps the number of invocations observable.
* `ManuallyDrop<T>` is plain `T`; the manual-drop discipline of the source
  shows up in `Reusable.drop` (attach on drop when a pool reference is
  present) and `Reusable.detach` (which `forget`s `self`, so the drop glue
  never runs: the world passes through unchanged).
-/

namespace ObjectPool

/-- Identifier standing for one `Arc<Pool<T>>` allocation. -/
abbrev PoolId := Nat

/-- Source: `pub type Stack<T> = Vec<T>;` — last element is the top. -/
abbrev Stack (T : Type) := List T

/-- `Vec::push`: append at the end. -/
def Stack.push {T : Type} (s : Stack T) (t : T) : Stack T :=
  s.concat t

/-- `Vec::pop`: remove and return the last element; on an empty vector
return `none` and leave the vector unchanged. -/
def Stack.pop {T : Type} (s : Stack T) : Option T × Stack T :=
  match s.getLast? with
  | some x => (some x, s.dropLast)
  | none => (none, s)

/-- Source struct `Pool<T>`: the idle storage behind a mutex, a
diagnostic name, and the failure-telemetry fields `last_fail`
(`Mutex<Instant>`) and `cnt_fail` (`AtomicUsize`). -/
structure Pool (T : Type) where
  objects : Stack T
  name : String
  lastFail : Nat
  cntFail : Nat
deriving DecidableEq

/-- The heap of pools reachable through `Arc` references. -/
abbrev World (T : Type) := PoolId → Pool T

/-- Replace the pool behind one reference, leaving every other pool
untouched. -/
def World.update {T : Type} (w : World T) (pid : PoolId) (p : Pool T) : World T :=
  fun q => if q = pid then p else w q

/-- Source `Pool::new(name, cap, init)`: push `init()` onto a fresh stack
`cap` times, then build the struct with `last_fail = Instant::now()`
(abstracted as `0`) and `cnt_fail = 0`.  The factory call made by the
i-th iteration is `init i`, so the stack is `[init 0, …, init (cap-1)]`. -/
def Pool.new {T : Type} (name : String) (cap : Nat) (init : Nat → T) : Pool T :=
  { objects := (List.range cap).map init
    name := name
    lastFail := 0
    cntFail := 0 }

/-- Source `Pool::len`: length of the idle storage. -/
def Pool.len {T : Type} (p : Pool T) : Nat :=
  p.objects.length

/-- Source `Pool::is_empty`. -/
def Pool.is_empty {T : Type} (p : Pool T) : Bool :=
  p.objects.isEmpty

/-- Source `Pool::attach`: `self.objects.lock().push(t)` — an
unconditional push, no capacity check of any kind. -/
def Pool.attach {T : Type} (p : Pool T) (t : T) : Pool T :=
  { p with objects := Stack.push p.objects t }

/-- Source struct `Reusable<T>`: an optional `Arc<Pool<T>>` back
reference and the wrapped value (`ManuallyDrop<T>`). -/
structure Reusable (T : Type) where
  pool : Option PoolId
  data : T
deriving DecidableEq

/-- Source `Reusable::new`. -/
def Reusable.new {T : Type} (pool : Option PoolId) (t : T) : Reusable T :=
  { pool := pool, data := t }

/-- Source free function `try_pull`:
`pool.objects.lock().pop().map(|data| Reusable::new(Some(pool.clone()), data))`.
On a non-empty pool the popped value is wrapped with a reference to this
pool; on an empty pool `pop` returns `None`, the stack is unchanged and
the result is `None`. -/
def try_pull {T : Type} (w : World T) (pid : PoolId) : Option (Reusable T) × World T :=
  match Stack.pop (w pid).objects with
  | (some data, rest) =>
      (some (Reusable.new (some pid) data),
        World.update w pid { w pid with objects := rest })
  | (none, _) => (none, w)

/-- Source free function `pull`:
`try_pull(pool.clone()).unwrap_or_else(|| Reusable::new(Some(pool.clone()), fallback()))`. -/
def pull {T : Type} (w : World T) (pid : PoolId) (fallback : Unit → T) :
    Reusable T × World T :=
  let s := try_pull w pid
  match s.1 with
  | some r => (r, s.2)
  | none => (Reusable.new (some pid) (fallback ()), s.2)

/-- Source `Reusable::detach`: clones the pool reference, takes the value
out of the `ManuallyDrop`, and `forget`s `self`, so the `Drop` impl never
runs — no pool is touched.  The world is threaded through unchanged to
make that absence of mutation explicit. -/
def Reusable.detach {T : Type} (r : Reusable T) (w : World T) :
    (Option PoolId × T) × World T :=
  ((r.pool, r.data), w)

/-- Source `impl Drop for Reusable`: if a pool reference is present,
clone it and `attach` the taken value back to that pool; otherwise drop
the value in place, touching no pool. -/
def Reusable.drop {T : Type} (r : Reusable T) (w : World T) : World T :=
  match r.pool with
  | some pid => World.update w pid (Pool.attach (w pid) r.data)
  | none => w

/-- `n` successive `try_pull` calls against the same pool, collecting the
results in call order. -/
def try_pull_n {T : Type} (w : World T) (pid : PoolId) :
    Nat → List (Option (Reusable T)) × World T
  | 0 => ([], w)
  | n + 1 =>
      ((try_pull w pid).1 :: (try_pull_n (try_pull w pid).2 pid n).1,
        (try_pull_n (try_pull w pid).2 pid n).2)

/-- Drop every guard of a list in order (each guard going out of scope
without `detach`). -/
def drop_all {T : Type} (rs : List (Reusable T)) (w : World T) : World T :=
  rs.foldl (fun wa r => Reusable.drop r wa) w

/-- Concrete worlds used to instantiate the general theorems: a single
pool of capacity 0 everywhere. -/
def w_empty : World Nat :=
  fun _ => Pool.new "t" 0 (fun _ => 0)

/-- Concrete world: a single pool of capacity 1 everywhere, whose only
idle instance is the value 5. -/
def w_one : World Nat :=
  fun _ => Pool.new "t" 1 (fun n => n + 5)

/-! Basic lemmas about the embedded operations. -/

theorem Stack.pop_concat {T : Type} (l : List T) (x : T) :
    Stack.pop (l.concat x) = (some x, l) := by
  simp [Stack.pop, List.concat_eq_append, List.getLast?_concat, List.dropLast_concat]

theorem Stack.pop_nil {T : Type} : Stack.pop ([] : Stack T) = (none, []) := rfl

theorem World.update_self {T : Type} (w : World T) (pid : PoolId) (p : Pool T) :
    World.update w pid p pid = p := by
  simp [World.update]

theorem World.update_ne {T : Type} (w : World T) (pid q : PoolId) (p : Pool T)
    (h : q ≠ pid) : World.update w pid p q = w q := by
  simp [World.update, h]

theorem try_pull_eq_nil {T : Type} (w : World T) (pid : PoolId)
    (h : (w pid).objects = []) : try_pull w pid = (none, w) := by
  unfold try_pull
  rw [h, Stack.pop_nil]

theorem try_pull_eq_concat {T : Type} (w : World T) (pid : PoolId) (l : List T) (x : T)
    (h : (w pid).objects = l.concat x) :
    try_pull w pid =
      (some (Reusable.new (some pid) x),
        World.update w pid { w pid with objects := l }) := by
  unfold try_pull
  rw [h, Stack.pop_concat]

theorem try_pull_pool_eq {T : Type} (w : World T) (pid : PoolId) (g : Reusable T)
    (h : (try_pull w pid).1 = some g) : g.pool = some pid := by
  obtain hnil | ⟨l, x, hlx⟩ := List.eq_nil_or_concat (w pid).objects
  · rw [try_pull_eq_nil w pid hnil] at h
    simp at h
  · rw [try_pull_eq_concat w pid l x hlx] at h
    simp at h
    rw [← h]
    rfl

theorem attach_then_pull_fst {T : Type} (w : World T) (pid : PoolId) (v : T) :
    (try_pull (World.update w pid (Pool.attach (w pid) v)) pid).1 =
      some (Reusable.new (some pid) v) := by
  have hobj : ((World.update w pid (Pool.attach (w pid) v)) pid).objects =
      ((w pid).objects).concat v := by
    simp [World.update_self, Pool.attach, Stack.push]
  rw [try_pull_eq_concat _ pid _ _ hobj]

theorem attach_then_pull_snd {T : Type} (w : World T) (pid : PoolId) (v : T) :
    ((try_pull (World.update w pid (Pool.attach (w pid) v)) pid).2 pid).objects =
      (w pid).objects := by
  have hobj : ((World.update w pid (Pool.attach (w pid) v)) pid).objects =
      ((w pid).objects).concat v := by
    simp [World.update_self, Pool.attach, Stack.push]
  rw [try_pull_eq_concat _ pid _ _ hobj]
  simp [World.update_self]

theorem filterMap_id_map_some {α : Type} (gs : List α) :
    (gs.map some).filterMap id = gs := by
  induction gs with
  | nil => rfl
  | cons g gs ih => simp [List.filterMap_cons, ih]

/-- Pulling `n` times from a pool holding at least `n` idle instances
succeeds every time: the results are `n` guards, each carrying a
reference to this pool, and exactly `n` instances leave the idle
storage. -/
theorem try_pull_n_spec {T : Type} (n : Nat) :
    ∀ (w : World T) (pid : PoolId), n ≤ (w pid).objects.length →
      ∃ gs : List (Reusable T),
        (try_pull_n w pid n).1 = gs.map some ∧
        gs.length = n ∧
        (∀ g ∈ gs, g.pool = some pid) ∧
        ((try_pull_n w pid n).2 pid).objects.length = (w pid).objects.length - n := by
  induction n with
  | zero =>
      intro w pid _
      exact ⟨[], rfl, rfl, by simp, by simp [try_pull_n]⟩
  | succ n ih =>
      intro w pid h
      obtain hnil | ⟨l, x, hlx⟩ := List.eq_nil_or_concat (w pid).objects
      · rw [hnil] at h
        simp at h
      · have hp := try_pull_eq_concat w pid l x hlx
        have hw1pid : ((try_pull w pid).2 pid).objects = l := by
          rw [hp]
          simp [World.update_self]
        have hlen : (w pid).objects.length = l.length + 1 := by
          rw [hlx]
          simp
        have hle : n ≤ ((try_pull w pid).2 pid).objects.length := by
          rw [hw1pid]
          omega
        obtain ⟨gs, h1, h2, h3, h4⟩ := ih ((try_pull w pid).2) pid hle
        refine ⟨Reusable.new (some pid) x :: gs, ?_, ?_, ?_, ?_⟩
        · show (try_pull w pid).1 :: (try_pull_n (try_pull w pid).2 pid n).1 = _
          rw [h1, hp]
          rfl
        · simp [h2]
        · intro g hg
          rcases List.mem_cons.mp hg with hg | hg
          · rw [hg]
            rfl
          · exact h3 g hg
        · show ((try_pull_n (try_pull w pid).2 pid n).2 pid).objects.length = _
          rw [h4, hw1pid, hlen]
          omega

/-- Dropping a list of guards that all reference pool `pid` grows that
pool by exactly the number of guards. -/
theorem drop_all_len {T : Type} (gs : List (Reusable T)) :
    ∀ (w : World T) (pid : PoolId), (∀ g ∈ gs, g.pool = some pid) →
      ((drop_all gs w) pid).objects.length = (w pid).objects.length + gs.length := by
  induction gs with
  | nil =>
      intro w pid _
      simp [drop_all]
  | cons g gs ih =>
      intro w pid hall
      have hg : g.pool = some pid := hall g (by simp)
      have hstep : drop_all (g :: gs) w = drop_all gs (Reusable.drop g w) := by
        simp [drop_all]
      rw [hstep, ih (Reusable.drop g w) pid (fun g' hg' => hall g' (by simp [hg']))]
      have hone : ((Reusable.drop g w) pid).objects.length =
          (w pid).objects.length + 1 := by
        simp [Reusable.drop, hg, World.update_self, Pool.attach, Stack.push]
      rw [hone]
      simp [Nat.add_assoc, Nat.add_comm 1]

/-! The claims. -/

/-- Claim C9: for all capacities C and factories F, constructing a pool
runs the factory exactly C times synchronously during construction (the
idle storage is exactly the list of the C factory results, the i-th call
producing the i-th instance), and the freshly constructed pool has
size() == C. -/
theorem C9_new_fills_to_capacity {T : Type} (name : String) (cap : Nat) (init : Nat → T) :
    (Pool.new name cap init).objects = (List.range cap).map init ∧
    (Pool.new name cap init).len = cap := by
  refine ⟨rfl, ?_⟩
  simp [Pool.new, Pool.len]

/-- Claim C6: for every pool state and every value v, attach(v)
unconditionally pushes v onto the idle storage and increases size() by
exactly one; the operation is total, with no capacity ceiling of any
kind (the statement holds for every pool state, including states already
at or above the construction capacity). -/
theorem C6_attach_unconditional {T : Type} (p : Pool T) (t : T) :
    (p.attach t).objects = p.objects ++ [t] ∧
    (p.attach t).len = p.len + 1 := by
  constructor
  · simp [Pool.attach, Stack.push]
  · simp [Pool.attach, Stack.push, Pool.len]

/-- Claim C7: detach consumes the Guard and returns the pair (optional
pool reference, wrapped value); it disarms the automatic return (the
source forgets self, so the Drop impl never runs), hence no pool is
mutated: the world is unchanged and in particular every pool keeps its
size — a detach not followed by re-attach leaves pool accounting
untouched. -/
theorem C7_detach_no_residual {T : Type} (r : Reusable T) (w : World T) :
    (r.detach w).1 = (r.pool, r.data) ∧
    (r.detach w).2 = w ∧
    ∀ pid, ((r.detach w).2 pid).len = (w pid).len :=
  ⟨rfl, rfl, fun _ => rfl⟩

/-- Claim C4: try_pull on a non-empty pool (idle storage `l.concat x`)
removes exactly the top instance — the returned Guard wraps x and
references this pool, the storage becomes l, the size drops by one, and
no other pool changes; on an empty pool it returns none and leaves the
whole world unchanged (no blocking, no construction). -/
theorem C4_try_pull_pop_or_empty {T : Type} (w : World T) (pid : PoolId) :
    ((w pid).objects = [] → try_pull w pid = (none, w)) ∧
    (∀ l x, (w pid).objects = l.concat x →
      (try_pull w pid).1 = some (Reusable.new (some pid) x) ∧
      ((try_pull w pid).2 pid).objects = l ∧
      ((try_pull w pid).2 pid).len = (w pid).len - 1 ∧
      ∀ q, q ≠ pid → (try_pull w pid).2 q = w q) := by
  constructor
  · exact try_pull_eq_nil w pid
  · intro l x hlx
    have hp := try_pull_eq_concat w pid l x hlx
    rw [hp]
    refine ⟨rfl, by simp [World.update_self], ?_, ?_⟩
    · simp [World.update_self, Pool.len, hlx]
    · intro q hq
      exact World.update_ne w pid q _ hq

/-- Claim C4 witness: on the concrete empty pool try_pull returns none
and changes nothing; on the concrete one-element pool it returns a Guard
wrapping 5 referencing pool 0 and the size drops from 1 to 0. -/
theorem C4_witness :
    try_pull w_empty 0 = (none, w_empty) ∧
    (try_pull w_one 0).1 = some (Reusable.new (some 0) 5) ∧
    ((try_pull w_one 0).2 0).len = (w_one 0).len - 1 :=
  ⟨(C4_try_pull_pop_or_empty w_empty 0).1 rfl,
    ((C4_try_pull_pop_or_empty w_one 0).2 [] 5 rfl).1,
    ((C4_try_pull_pop_or_empty w_one 0).2 [] 5 rfl).2.2.1⟩

/-- Claim C5: pull never returns an empty result (its type is a plain
Guard).  When try_pull is empty, the result is the Guard built from one
invocation of the fallback factory, referencing the given pool; when
try_pull yields a Guard, that Guard is returned and the result does not
depend on the fallback factory at all (it is never invoked). -/
theorem C5_pull_fallback {T : Type} (w : World T) (pid : PoolId) (fallback : Unit → T) :
    ((try_pull w pid).1 = none →
      (pull w pid fallback).1 = Reusable.new (some pid) (fallback ()) ∧
      (pull w pid fallback).2 = (try_pull w pid).2) ∧
    (∀ g, (try_pull w pid).1 = some g →
      (pull w pid fallback).1 = g ∧
      ∀ fb : Unit → T, pull w pid fb = pull w pid fallback) := by
  constructor
  · intro h
    constructor <;> simp [pull, h]
  · intro g h
    constructor
    · simp [pull, h]
    · intro fb
      simp [pull, h]

/-- Claim C5 witness: on the concrete empty pool, pull returns the Guard
wrapping the fallback value 7; on the concrete one-element pool, pull
returns the pooled value 5 for any fallback. -/
theorem C5_witness :
    (pull w_empty 0 (fun _ => 7)).1 = Reusable.new (some 0) 7 ∧
    (pull w_one 0 (fun _ => 7)).1 = Reusable.new (some 0) 5 :=
  ⟨((C5_pull_fallback w_empty 0 (fun _ => 7)).1 rfl).1,
    ((C5_pull_fallback w_one 0 (fun _ => 7)).2 (Reusable.new (some 0) 5) rfl).1⟩

/-- Claim C3: when a Guard is dropped without detach and its pool
reference is present, the wrapped value is passed to that pool via
attach (that pool becomes exactly `attach` of its old state, its size
grows by one, and every other pool is untouched); when the pool
reference is absent, the value is destroyed in place and the whole world
is unchanged. -/
theorem C3_drop_returns_value {T : Type} (r : Reusable T) (w : World T) :
    (∀ pid, r.pool = some pid →
      (r.drop w) pid = Pool.attach (w pid) r.data ∧
      ((r.drop w) pid).len = (w pid).len + 1 ∧
      ∀ q, q ≠ pid → (r.drop w) q = w q) ∧
    (r.pool = none → r.drop w = w) := by
  constructor
  · intro pid hp
    refine ⟨?_, ?_, ?_⟩
    · simp [Reusable.drop, hp, World.update_self]
    · simp [Reusable.drop, hp, World.update_self, Pool.attach, Stack.push, Pool.len]
    · intro q hq
      simp [Reusable.drop, hp, World.update_ne _ _ _ _ hq]
  · intro hp
    simp [Reusable.drop, hp]

/-- Claim C3 witness: dropping the concrete Guard (pool 0, value 9) over
the one-element world attaches 9 to pool 0 and grows it from size 1 to
2; dropping the pool-less Guard with value 9 leaves the world
unchanged. -/
theorem C3_witness :
    ((Reusable.new (some 0) (9 : Nat)).drop w_one) 0 = Pool.attach (w_one 0) 9 ∧
    (((Reusable.new (some 0) (9 : Nat)).drop w_one) 0).len = (w_one 0).len + 1 ∧
    (Reusable.new none (9 : Nat)).drop w_one = w_one :=
  ⟨((C3_drop_returns_value (Reusable.new (some 0) 9) w_one).1 0 rfl).1,
    ((C3_drop_returns_value (Reusable.new (some 0) 9) w_one).1 0 rfl).2.1,
    (C3_drop_returns_value (Reusable.new none 9) w_one).2 rfl⟩

/-- Claim C10: the idle storage is a strict LIFO stack — attach(v)
immediately followed by try_pull returns a Guard wrapping exactly v (the
most recently attached instance) and restores the idle storage to its
previous contents. -/
theorem C10_lifo {T : Type} (w : World T) (pid : PoolId) (v : T) :
    (try_pull (World.update w pid (Pool.attach (w pid) v)) pid).1 =
      some (Reusable.new (some pid) v) ∧
    ((try_pull (World.update w pid (Pool.attach (w pid) v)) pid).2 pid).objects =
      (w pid).objects :=
  ⟨attach_then_pull_fst w pid v, attach_then_pull_snd w pid v⟩

/-- Claim C1 counterexample: the crate never updates the telemetry
fields.  On a concrete pool that is empty at call time, pull still
succeeds through the fallback, but cnt_fail does not strictly increase
(and last_fail is likewise unchanged), refuting the claimed strict
increase. -/
theorem C1_counterexample :
    (w_empty 0).objects = [] ∧
    ¬ ((pull w_empty 0 (fun _ => 7)).2 0).cntFail > (w_empty 0).cntFail ∧
    ((pull w_empty 0 (fun _ => 7)).2 0).lastFail = (w_empty 0).lastFail := by
  decide

/-- Claim C1 amended: whenever pull is called and try_pull finds the
pool empty, the call still returns a usable Guard (wrapping the fallback
value, referencing the pool), but the telemetry fields are untouched:
cnt_fail and last_fail keep their previous values — nothing in this
crate ever writes them after construction. -/
theorem C1_pull_leaves_telemetry {T : Type} (w : World T) (pid : PoolId)
    (fallback : Unit → T) (h : (w pid).objects = []) :
    (pull w pid fallback).1 = Reusable.new (some pid) (fallback ()) ∧
    ((pull w pid fallback).2 pid).cntFail = (w pid).cntFail ∧
    ((pull w pid fallback).2 pid).lastFail = (w pid).lastFail := by
  have ht := try_pull_eq_nil w pid h
  refine ⟨?_, ?_, ?_⟩ <;> simp [pull, ht]

/-- Claim C1 amended witness: on the concrete empty pool, pull yields
the fallback Guard and both telemetry fields are unchanged. -/
theorem C1_witness :
    (pull w_empty 0 (fun _ => 7)).1 = Reusable.new (some 0) 7 ∧
    ((pull w_empty 0 (fun _ => 7)).2 0).cntFail = (w_empty 0).cntFail ∧
    ((pull w_empty 0 (fun _ => 7)).2 0).lastFail = (w_empty 0).lastFail :=
  C1_pull_leaves_telemetry w_empty 0 (fun _ => 7) rfl

/-- Claim C2: from a freshly constructed pool of capacity C, C
successive try_pull calls each return a non-empty result, the (C+1)-th
try_pull returns an empty result, and after all C returned Guards are
dropped without detach the pool reads size C again. -/
theorem C2_capacity_cycle {T : Type} (C : Nat) (name : String) (init : Nat → T)
    (w : World T) (pid : PoolId) (h : w pid = Pool.new name C init) :
    (∀ r ∈ (try_pull_n w pid C).1, r.isSome = true) ∧
    (try_pull (try_pull_n w pid C).2 pid).1 = none ∧
    ((drop_all ((try_pull_n w pid C).1.filterMap id) (try_pull_n w pid C).2) pid).len
      = C := by
  have hlen : (w pid).objects.length = C := by
    rw [h]
    simp [Pool.new]
  obtain ⟨gs, h1, h2, h3, h4⟩ := try_pull_n_spec C w pid (by omega)
  have hdone : ((try_pull_n w pid C).2 pid).objects = [] := by
    have : ((try_pull_n w pid C).2 pid).objects.length = 0 := by
      rw [h4, hlen]
      omega
    exact List.length_eq_zero.mp this
  refine ⟨?_, ?_, ?_⟩
  · intro r hr
    rw [h1] at hr
    obtain ⟨g, _, hg⟩ := List.mem_map.mp hr
    rw [← hg]
    rfl
  · rw [try_pull_eq_nil _ pid hdone]
  · rw [h1, filterMap_id_map_some]
    show ((drop_all gs (try_pull_n w pid C).2) pid).objects.length = C
    rw [drop_all_len gs _ pid h3, hdone, h2]
    simp

/-- Claim C2 witness: the concrete capacity-1 pool yields the empty
result on the second try_pull, and dropping the one Guard obtained
brings the size back to 1. -/
theorem C2_witness :
    (try_pull (try_pull_n w_one 0 1).2 0).1 = none ∧
    ((drop_all ((try_pull_n w_one 0 1).1.filterMap id) (try_pull_n w_one 0 1).2) 0).len
      = 1 :=
  (C2_capacity_cycle 1 "t" (fun n => n + 5) w_one 0 rfl).2

/-- Claim C8: for a Guard freshly pulled from a pool, detach yields
(some pid, value) and touches no pool; re-attaching that value to the
pool grows the size by one; and a subsequent try_pull retrieves a Guard
wrapping a value equal to the original detached value. -/
theorem C8_detach_reattach {T : Type} (w : World T) (pid : PoolId) (g : Reusable T)
    (h : (try_pull w pid).1 = some g) :
    (g.detach (try_pull w pid).2).1 = (some pid, g.data) ∧
    ((World.update (try_pull w pid).2 pid
        (Pool.attach ((try_pull w pid).2 pid) g.data)) pid).len =
      (((try_pull w pid).2) pid).len + 1 ∧
    (try_pull (World.update (try_pull w pid).2 pid
        (Pool.attach ((try_pull w pid).2 pid) g.data)) pid).1 =
      some (Reusable.new (some pid) g.data) := by
  have hpool : g.pool = some pid := try_pull_pool_eq w pid g h
  refine ⟨?_, ?_, ?_⟩
  · simp [Reusable.detach, hpool]
  · simp [World.update_self, Pool.attach, Stack.push, Pool.len]
  · exact attach_then_pull_fst ((try_pull w pid).2) pid g.data

/-- Claim C8 witness: pulling the value 5 from the concrete capacity-1
pool, detaching it, re-attaching it and pulling again retrieves 5. -/
theorem C8_witness :
    ((Reusable.new (some 0) (5 : Nat)).detach (try_pull w_one 0).2).1 = (some 0, 5) ∧
    ((World.update (try_pull w_one 0).2 0
        (Pool.attach ((try_pull w_one 0).2 0) 5)) 0).len =
      (((try_pull w_one 0).2) 0).len + 1 ∧
    (try_pull (World.update (try_pull w_one 0).2 0
        (Pool.attach ((try_pull w_one 0).2 0) 5)) 0).1 =
      some (Reusable.new (some 0) 5) :=
  C8_detach_reattach w_one 0 (Reusable.new (some 0) 5) rfl

end ObjectPool
